import Mathlib

set_option autoImplicit false

/-!
Verification of the Socialer backend (Express + Prisma + Socket.IO) against
its design specification.  Each Prisma-backed handler is embedded as a pure
Lean function over an explicit database value; ids are abstract `Nat`s (the
source uses cuid strings, whose only used operation is equality).  Response
statuses (200/201, 400, 403, 404, 409, 500) are embedded as an `Outcome`
sum; response-body projections (author select blocks, `_count` aggregates)
carry no decision logic and are not modelled.
-/

namespace Socialer

/-- Post visibility enum from the Prisma schema: PUBLIC, FRIENDS, PRIVATE. -/
inductive Visibility
  | PUBLIC
  | FRIENDS
  | PRIVATE
deriving DecidableEq, Repr

/-- A Post row: id, owning author, visibility, text content, creation time.
Media/location/tags fields carry no decision logic in the embedded handlers
and are omitted. -/
structure Post where
  id : Nat
  authorId : Nat
  visibility : Visibility
  content : String
  createdAt : Nat
deriving DecidableEq, Repr

/-- A Comment row: id, owning post, authoring user (`userId` in the schema),
content, optional parent comment, creation time. -/
structure Comment where
  id : Nat
  postId : Nat
  userId : Nat
  content : String
  parentId : Option Nat
  createdAt : Nat
deriving DecidableEq, Repr

/-- A Follow edge: the follower follows the following user; unique per pair
(`followerId_followingId` compound key). -/
structure Follow where
  followerId : Nat
  followingId : Nat
deriving DecidableEq, Repr

/-- A Like row: unique per (userId, postId) (`userId_postId` compound key). -/
structure Like where
  userId : Nat
  postId : Nat
deriving DecidableEq, Repr

/-- Notification type enum (the types the embedded handlers create). -/
inductive NotificationType
  | LIKE
  | COMMENT
  | FOLLOW
deriving DecidableEq, Repr

/-- A Notification row; the human-readable message text is not modelled. -/
structure Notification where
  type : NotificationType
  recipientId : Nat
  triggererId : Nat
  relatedId : Option Nat
deriving DecidableEq, Repr

/-- A Message row created by the `send_message` socket handler. -/
structure Message where
  id : Nat
  senderId : Nat
  receiverId : Nat
  content : String
deriving DecidableEq, Repr

/-- The relational store, as lists of rows in table (insertion) order.
Users are reduced to their ids: no handler embedded here reads any other
user column for a decision. -/
structure DB where
  users : List Nat
  posts : List Post
  comments : List Comment
  follows : List Follow
  likes : List Like
  notifications : List Notification
  messages : List Message
deriving DecidableEq, Repr

/-- `prisma.post.findUnique({ where: { id } })`. -/
def DB.findPost (db : DB) (id : Nat) : Option Post :=
  db.posts.find? (fun p => p.id == id)

/-- `prisma.comment.findUnique({ where: { id } })`. -/
def DB.findComment (db : DB) (id : Nat) : Option Comment :=
  db.comments.find? (fun c => c.id == id)

/-- `prisma.follow.findUnique({ where: { followerId_followingId } })`,
reduced to existence (every caller only tests truthiness). -/
def DB.followExists (db : DB) (followerId followingId : Nat) : Bool :=
  db.follows.any (fun f => f.followerId == followerId && f.followingId == followingId)

/-- `prisma.like.findUnique({ where: { userId_postId } })`, reduced to
existence (the caller only tests truthiness). -/
def DB.likeExists (db : DB) (userId postId : Nat) : Bool :=
  db.likes.any (fun l => l.userId == userId && l.postId == postId)

/-- `prisma.user.findUnique({ where: { id } })`, reduced to existence. -/
def DB.userExists (db : DB) (id : Nat) : Bool :=
  db.users.any (fun u => u == id)

/-- Number of Like rows for the pair (userId, postId); the store's compound
unique key keeps this at most 1, but the embedding does not assume it. -/
def DB.likeCount (db : DB) (userId postId : Nat) : Nat :=
  (db.likes.filter (fun l => l.userId == userId && l.postId == postId)).length

/-- HTTP outcome of a handler: `ok` is the 200/201 success payload,
`notFound` 404, `forbidden` 403, `invalidAction` 400, `conflict` 409,
`internalError` 500. -/
inductive Outcome (α : Type)
  | ok (val : α)
  | notFound
  | forbidden
  | invalidAction
  | conflict
  | internalError
deriving DecidableEq, Repr

/-- Forgets the success payload, keeping only the response status. -/
def Outcome.status {α : Type} : Outcome α → Outcome Unit
  | .ok _ => .ok ()
  | .notFound => .notFound
  | .forbidden => .forbidden
  | .invalidAction => .invalidAction
  | .conflict => .conflict
  | .internalError => .internalError

/-- The follows-the-author test the FRIENDS branch of `getPostById` runs:
for an identified viewer, a follow-edge lookup with follower = viewer and
followee = author; an anonymous viewer never reaches the lookup and is
denied. -/
def viewerFollows (db : DB) (viewer : Option Nat) (authorId : Nat) : Bool :=
  match viewer with
  | some uid => db.followExists uid authorId
  | none => false

/-- `getPostById` (postController.js 67-157): look the post up (404 when
absent), then the PRIVATE check, then the FRIENDS check with the follow
lookup; `viewer = none` is the anonymous optional-auth case
(`req.user?.id` undefined). -/
def getPostById (db : DB) (viewer : Option Nat) (id : Nat) : Outcome Post :=
  match db.findPost id with
  | none => .notFound
  | some post =>
    if post.visibility = .PRIVATE ∧ viewer ≠ some post.authorId then
      .forbidden
    else if post.visibility = .FRIENDS ∧ viewer ≠ some post.authorId then
      match viewer with
      | some uid => if db.followExists uid post.authorId then .ok post else .forbidden
      | none => .forbidden
    else
      .ok post

/-- Descending creation-time order on posts (`orderBy: { createdAt: 'desc' }`):
`postGE p q` holds when `p` sorts no later than `q`. -/
def postGE (p q : Post) : Prop := q.createdAt ≤ p.createdAt

instance : DecidableRel postGE :=
  fun p q => inferInstanceAs (Decidable (q.createdAt ≤ p.createdAt))

instance : IsTotal Post postGE :=
  ⟨fun a b => Nat.le_total b.createdAt a.createdAt⟩

instance : IsTrans Post postGE :=
  ⟨fun _ _ _ hab hbc => Nat.le_trans hbc hab⟩

/-- Descending creation-time order on comments. -/
def commentGE (c d : Comment) : Prop := d.createdAt ≤ c.createdAt

instance : DecidableRel commentGE :=
  fun c d => inferInstanceAs (Decidable (d.createdAt ≤ c.createdAt))

/-- Ascending creation-time order on comments (`orderBy: { createdAt: 'asc' }`). -/
def commentLE (c d : Comment) : Prop := c.createdAt ≤ d.createdAt

instance : DecidableRel commentLE :=
  fun c d => inferInstanceAs (Decidable (c.createdAt ≤ d.createdAt))

/-- The relational store's `ORDER BY createdAt DESC` on posts.  The query
names no secondary sort key, so rows with equal `createdAt` come back in
table order; a stable sort models that. -/
def sortPostsByCreatedDesc (l : List Post) : List Post :=
  List.insertionSort postGE l

/-- `ORDER BY createdAt DESC` on comments, ties in table order. -/
def sortCommentsByCreatedDesc (l : List Comment) : List Comment :=
  List.insertionSort commentGE l

/-- `ORDER BY createdAt ASC` on comments, ties in table order. -/
def sortCommentsByCreatedAsc (l : List Comment) : List Comment :=
  List.insertionSort commentLE l

/-- A feed page as `getFeed` responds: the selected rows paired with their
per-viewer `isLiked` flag, and the pagination block. -/
structure FeedPage where
  posts : List (Post × Bool)
  page : Nat
  limit : Nat
  hasMore : Bool
deriving DecidableEq, Repr

/-- The `where` clause of the feed query (postController.js 460-472):
author among the viewer's followees plus the viewer, and PUBLIC, or FRIENDS
with the author in that same set, or the viewer's own post. -/
def feedWhere (followingIds : List Nat) (userId : Nat) (p : Post) : Bool :=
  followingIds.contains p.authorId &&
    (p.visibility == .PUBLIC ||
      (p.visibility == .FRIENDS && followingIds.contains p.authorId) ||
      p.authorId == userId)

/-- `getFeed` (postController.js 444-525): collect the viewer's followee ids
and append the viewer's own id, filter posts by the feed `where` clause,
order by `createdAt` descending, apply `skip = (page-1)*limit` and
`take = limit`, attach the per-viewer `isLiked` flag, and report
`hasMore = (returned row count == limit)`.  The route authenticates, so the
viewer is always identified. -/
def getFeed (db : DB) (userId : Nat) (page limit : Nat) : FeedPage :=
  let followingIds :=
    ((db.follows.filter (fun f => f.followerId == userId)).map
      (fun f => f.followingId)) ++ [userId]
  let selected := db.posts.filter (feedWhere followingIds userId)
  let pagePosts := ((sortPostsByCreatedDesc selected).drop ((page - 1) * limit)).take limit
  { posts := pagePosts.map (fun p => (p, db.likeExists userId p.id)),
    page := page,
    limit := limit,
    hasMore := pagePosts.length == limit }

/-- `getPostComments` (commentController.js 115-203): looks the post up
(404 when absent) but runs NO visibility/access check, then returns the
page of top-level comments (`parentId: null`) ordered by `createdAt`
descending.  The `viewer` argument reflects the optional-auth route; the
handler never reads it.  Nested reply previews and counts are response
decoration, not modelled. -/
def getPostComments (db : DB) (viewer : Option Nat) (postId : Nat)
    (page limit : Nat) : Outcome (List Comment) :=
  match db.findPost postId with
  | none => .notFound
  | some _ =>
    .ok (((sortCommentsByCreatedDesc
        (db.comments.filter (fun c => c.postId == postId && c.parentId.isNone))).drop
          ((page - 1) * limit)).take limit)

/-- `getCommentReplies` (commentController.js 205-253): pages the replies of
a comment ordered by `createdAt` ascending.  It performs no post lookup and
no access check of any kind, and never reads the viewer. -/
def getCommentReplies (db : DB) (viewer : Option Nat) (commentId : Nat)
    (page limit : Nat) : Outcome (List Comment) :=
  .ok (((sortCommentsByCreatedAsc
      (db.comments.filter (fun c => c.parentId == some commentId))).drop
        ((page - 1) * limit)).take limit)

/-- The row creation tail of `createComment` (commentController.js 63-100):
insert the Comment row, then, when commenting on someone else's post, insert
a COMMENT notification for the post's author. -/
def createCommentRow (db : DB) (userId postId : Nat) (content : String)
    (parentId : Option Nat) (newId now : Nat) (post : Post) : DB × Outcome Comment :=
  let c : Comment :=
    { id := newId, postId := postId, userId := userId, content := content,
      parentId := parentId, createdAt := now }
  let db1 := { db with comments := db.comments ++ [c] }
  let db2 :=
    if post.authorId ≠ userId then
      { db1 with notifications := db1.notifications ++
          [{ type := .COMMENT, recipientId := post.authorId,
             triggererId := userId, relatedId := some postId }] }
    else db1
  (db2, .ok c)

/-- `createComment` (commentController.js 3-113): post lookup (404), the
PRIVATE and FRIENDS access checks against the parent post's author and
visibility (403), then, when a `parentId` is supplied, a parent-comment
lookup that 404s unless the parent exists and belongs to the same post;
finally the row creation tail.  The route authenticates, so `userId` is
always identified. -/
def createComment (db : DB) (userId postId : Nat) (content : String)
    (parentId : Option Nat) (newId now : Nat) : DB × Outcome Comment :=
  match db.findPost postId with
  | none => (db, .notFound)
  | some post =>
    if post.visibility = .PRIVATE ∧ post.authorId ≠ userId then
      (db, .forbidden)
    else if post.visibility = .FRIENDS ∧ post.authorId ≠ userId ∧
        db.followExists userId post.authorId = false then
      (db, .forbidden)
    else
      match parentId with
      | none => createCommentRow db userId postId content none newId now post
      | some pid =>
        match db.findComment pid with
        | none => (db, .notFound)
        | some pc =>
          if pc.postId ≠ postId then (db, .notFound)
          else createCommentRow db userId postId content (some pid) newId now post

/-- The optional fields of an update-post request body; an absent field
leaves the column unchanged (the handler copies only defined fields into
`updateData`). -/
structure PostUpdate where
  content : Option String
  visibility : Option Visibility
deriving DecidableEq, Repr

/-- Applies `prisma.post.update` with the given update data to one row. -/
def applyPostUpdate (upd : PostUpdate) (p : Post) : Post :=
  { p with
    content := upd.content.getD p.content,
    visibility := upd.visibility.getD p.visibility }

/-- `updatePost` (postController.js 159-225): 404 when the post is absent,
403 when the caller is not the author, otherwise apply the update.  The
lookup selects only `id` and `authorId`; the post's visibility is written
when supplied but never read. -/
def updatePost (db : DB) (userId id : Nat) (upd : PostUpdate) : DB × Outcome Post :=
  match db.findPost id with
  | none => (db, .notFound)
  | some post =>
    if post.authorId ≠ userId then (db, .forbidden)
    else
      let posts1 := db.posts.map (fun p => if p.id == id then applyPostUpdate upd p else p)
      ({ db with posts := posts1 }, .ok (applyPostUpdate upd post))

/-- `deletePost` (postController.js 227-266): 404 when absent, 403 when the
caller is not the author, otherwise delete the row. -/
def deletePost (db : DB) (userId id : Nat) : DB × Outcome Unit :=
  match db.findPost id with
  | none => (db, .notFound)
  | some post =>
    if post.authorId ≠ userId then (db, .forbidden)
    else ({ db with posts := db.posts.filter (fun p => !(p.id == id)) }, .ok ())

/-- `updateComment` (commentController.js 255-313): 404 when absent, 403
when the caller is not the comment's author (`userId` column), otherwise
update the content. -/
def updateComment (db : DB) (userId id : Nat) (content : String) :
    DB × Outcome Unit :=
  match db.findComment id with
  | none => (db, .notFound)
  | some c =>
    if c.userId ≠ userId then (db, .forbidden)
    else
      let comments1 := db.comments.map (fun d => if d.id == id then { d with content := content } else d)
      ({ db with comments := comments1 }, .ok ())

/-- `deleteComment` (commentController.js 315-354): 404 when absent, 403
when the caller is not the comment's author, otherwise delete the row. -/
def deleteComment (db : DB) (userId id : Nat) : DB × Outcome Unit :=
  match db.findComment id with
  | none => (db, .notFound)
  | some c =>
    if c.userId ≠ userId then (db, .forbidden)
    else ({ db with comments := db.comments.filter (fun d => !(d.id == id)) }, .ok ())

/-- Rewrites the visibility of the post(s) with the given id, leaving the
rest of the store untouched; used to state that write decisions never
consult the visibility column. -/
def setPostVisibility (db : DB) (id : Nat) (v : Visibility) : DB :=
  let posts1 := db.posts.map (fun p => if p.id == id then { p with visibility := v } else p)
  { db with posts := posts1 }

/-- `likePost` (postController.js 268-343): 404 when the post is absent;
when a Like row for (user, post) exists, delete it and answer
`isLiked: false`; otherwise insert the row, insert a LIKE notification when
the post belongs to someone else, and answer `isLiked: true`.  The store's
compound unique key makes the delete-by-key remove exactly the matching
row(s). -/
def likePost (db : DB) (userId postId : Nat) : DB × Outcome Bool :=
  match db.findPost postId with
  | none => (db, .notFound)
  | some post =>
    if db.likeExists userId postId then
      let likes1 := db.likes.filter (fun l => !(l.userId == userId && l.postId == postId))
      ({ db with likes := likes1 }, .ok false)
    else
      let db1 := { db with likes := db.likes ++ [{ userId := userId, postId := postId }] }
      let db2 :=
        if post.authorId ≠ userId then
          { db1 with notifications := db1.notifications ++
              [{ type := .LIKE, recipientId := post.authorId,
                 triggererId := userId, relatedId := some postId }] }
        else db1
      (db2, .ok true)

/-- `n` successive `likePost` toggles by the same user on the same post. -/
def toggleIter (db : DB) (userId postId : Nat) : Nat → DB
  | 0 => db
  | n + 1 => (likePost (toggleIter db userId postId n) userId postId).1

/-- `followUser` (users controller, 196-266): 400 InvalidAction on self-
follow, 404 when the followee does not exist, 409 when the edge already
exists; otherwise insert the edge and then insert a FOLLOW notification.
`notifOk` models whether the awaited `prisma.notification.create` succeeds:
on failure the handler's catch answers 500, but the already-committed
follow row is not removed (there is no transaction). -/
def followUser (db : DB) (followerId followingId : Nat) (notifOk : Bool) :
    DB × Outcome Unit :=
  if followerId = followingId then (db, .invalidAction)
  else if db.userExists followingId = false then (db, .notFound)
  else if db.followExists followerId followingId then (db, .conflict)
  else
    let db1 := { db with follows := db.follows ++
        [{ followerId := followerId, followingId := followingId }] }
    if notifOk then
      ({ db1 with notifications := db1.notifications ++
          [{ type := .FOLLOW, recipientId := followingId,
             triggererId := followerId, relatedId := none }] },
        .ok ())
    else (db1, .internalError)

/-- Payload of a socket emission from the `send_message` handler. -/
inductive Payload
  | messageData (m : Message)
  | messageSent (messageId : Nat)
  | errorText (text : String)
deriving DecidableEq, Repr

/-- A socket emission: `toRoom` is `io.to(room).emit(event, payload)`
(every connection in the room); `toSender` is `socket.emit(event, payload)`
(only the originating connection). -/
inductive Emit
  | toRoom (room : String) (event : String) (payload : Payload)
  | toSender (event : String) (payload : Payload)
deriving DecidableEq, Repr

/-- The `send_message` socket handler (index.js 121-155): create the
Message row; on success broadcast the persisted row to the receiver's
identity room `user_<id>` as `new_message` and acknowledge the originating
connection with `message_sent` carrying the persisted id; when the awaited
create throws (`persistOk = false`) the catch emits only an `error` event
to the originating connection and nothing is broadcast.  `newId` is the id
the store assigns to the created row. -/
def sendMessageHandler (db : DB) (senderId receiverId : Nat) (content : String)
    (newId : Nat) (persistOk : Bool) : DB × List Emit :=
  if persistOk then
    let m : Message :=
      { id := newId, senderId := senderId, receiverId := receiverId, content := content }
    ({ db with messages := db.messages ++ [m] },
      [Emit.toRoom ("user_" ++ toString receiverId) "new_message" (.messageData m),
       Emit.toSender "message_sent" (.messageSent m.id)])
  else
    (db, [Emit.toSender "error" (.errorText "Failed to send message")])

/-! ### Stores used to instantiate the theorems -/

/-- A store with one FRIENDS post by user 1 and a follow edge 2 → 1. -/
def dbFriends : DB :=
  { users := [1, 2, 3],
    posts := [{ id := 10, authorId := 1, visibility := .FRIENDS, content := "p", createdAt := 0 }],
    comments := [],
    follows := [{ followerId := 2, followingId := 1 }],
    likes := [], notifications := [], messages := [] }

/-- The FRIENDS post stored in `dbFriends`. -/
def postFriends : Post :=
  { id := 10, authorId := 1, visibility := .FRIENDS, content := "p", createdAt := 0 }

/-- A store with one PRIVATE post by user 1. -/
def dbPrivate : DB :=
  { users := [1, 2],
    posts := [{ id := 11, authorId := 1, visibility := .PRIVATE, content := "q", createdAt := 0 }],
    comments := [], follows := [], likes := [], notifications := [], messages := [] }

/-- The PRIVATE post stored in `dbPrivate`. -/
def postPrivate : Post :=
  { id := 11, authorId := 1, visibility := .PRIVATE, content := "q", createdAt := 0 }

/-! ### C1, C2: post read access -/

/-- C1: for every post with visibility FRIENDS, `getPostById` succeeds
exactly when the viewer is the post's author or a follow edge with
follower = viewer and followee = author exists; every other viewer,
anonymous included, is denied with Forbidden. -/
theorem friends_post_read_iff (db : DB) (viewer : Option Nat) (id : Nat) (post : Post)
    (hfind : db.findPost id = some post) (hvis : post.visibility = .FRIENDS) :
    (getPostById db viewer id = .ok post ↔
      viewer = some post.authorId ∨ viewerFollows db viewer post.authorId = true) ∧
    (getPostById db viewer id = .ok post ∨ getPostById db viewer id = .forbidden) := by
  unfold getPostById
  rw [hfind]
  by_cases hauth : viewer = some post.authorId
  · simp [hvis, hauth]
  · cases viewer with
    | none => simp [hvis, hauth, viewerFollows]
    | some uid =>
      by_cases hf : db.followExists uid post.authorId
      · simp [hvis, hauth, viewerFollows, hf]
      · simp [hvis, hauth, viewerFollows, hf]

/-- Witness for C1: user 2 follows user 1 and may read the FRIENDS post. -/
theorem friends_post_read_iff_witness :
    getPostById dbFriends (some 2) 10 = Outcome.ok postFriends :=
  ((friends_post_read_iff dbFriends (some 2) 10 postFriends (by decide) (by decide)).1).mpr
    (Or.inr (by decide))

/-- C2: a missing post id answers NotFound before any access check, and for
every post with visibility PRIVATE, `getPostById` succeeds exactly for the
author and answers Forbidden (not NotFound) to every other viewer,
anonymous included. -/
theorem private_post_read_iff (db : DB) (viewer : Option Nat) (id : Nat) :
    (db.findPost id = none → getPostById db viewer id = .notFound) ∧
    (∀ post, db.findPost id = some post → post.visibility = .PRIVATE →
      getPostById db viewer id =
        if viewer = some post.authorId then .ok post else .forbidden) := by
  constructor
  · intro h
    unfold getPostById
    rw [h]
  · intro post hfind hvis
    unfold getPostById
    rw [hfind]
    by_cases hauth : viewer = some post.authorId
    · simp [hvis, hauth]
    · simp [hvis, hauth]

/-- Witness for C2: user 2 is not the author and is denied with Forbidden. -/
theorem private_post_read_iff_witness :
    getPostById dbPrivate (some 2) 11 = Outcome.forbidden :=
  ((private_post_read_iff dbPrivate (some 2) 11).2 postPrivate (by decide) (by decide)).trans
    (by decide)

/-! ### C3: comment operations and the post's visibility rule -/

/-- A store with one PRIVATE post by user 1 carrying one top-level comment
and one reply. -/
def dbPrivComments : DB :=
  { users := [1, 2],
    posts := [{ id := 10, authorId := 1, visibility := .PRIVATE, content := "p", createdAt := 0 }],
    comments :=
      [{ id := 20, postId := 10, userId := 1, content := "c", parentId := none, createdAt := 1 },
       { id := 21, postId := 10, userId := 1, content := "r", parentId := some 20, createdAt := 2 }],
    follows := [], likes := [], notifications := [], messages := [] }

/-- C3: the comment read paths do not reuse the parent post's visibility
rule.  The same anonymous viewer who is Forbidden from reading the PRIVATE
post is served its comments by `getPostComments` (which checks only that
the post exists) and its replies by `getCommentReplies` (which checks
nothing about the post), while `createComment` does deny that post's
non-author commenters. -/
theorem comment_reads_skip_access_check :
    getPostById dbPrivComments none 10 = Outcome.forbidden ∧
    getPostComments dbPrivComments none 10 1 20 =
      Outcome.ok [{ id := 20, postId := 10, userId := 1, content := "c",
                    parentId := none, createdAt := 1 }] ∧
    getCommentReplies dbPrivComments none 20 1 10 =
      Outcome.ok [{ id := 21, postId := 10, userId := 1, content := "r",
                    parentId := some 20, createdAt := 2 }] ∧
    (createComment dbPrivComments 2 10 "x" none 22 3).2 = Outcome.forbidden := by
  refine ⟨rfl, rfl, rfl, rfl⟩

/-! ### C4, C5: feed ordering and pagination -/

/-- C5: the feed's `hasMore` flag is true exactly when the returned page
holds `limit` rows; a shorter page never reports more. -/
theorem feed_hasMore_iff_full_page (db : DB) (userId page limit : Nat) :
    (getFeed db userId page limit).hasMore = true ↔
      (getFeed db userId page limit).posts.length = limit := by
  unfold getFeed
  simp

/-- The insertion sort behind the feed query is sorted for the descending
creation-time order. -/
theorem sortPosts_sorted (l : List Post) :
    List.Sorted postGE (sortPostsByCreatedDesc l) :=
  List.sorted_insertionSort postGE l

/-- A `take` of a `drop` is a sublist. -/
theorem take_drop_sublist {α : Type} (l : List α) (o n : Nat) :
    ((l.drop o).take n).Sublist l :=
  ((l.drop o).take_sublist n).trans (l.drop_sublist o)

/-- C4 (amended): every feed page is ordered by creation time descending;
the query names no secondary sort key, so no id tiebreak is applied to
equal-timestamp rows (see the counterexample). -/
theorem feed_sorted_by_created_desc (db : DB) (userId page limit : Nat) :
    List.Sorted (fun a b : Post × Bool => b.1.createdAt ≤ a.1.createdAt)
      ((getFeed db userId page limit).posts) := by
  unfold getFeed
  simp only []
  refine List.pairwise_map.mpr ?_
  exact List.Pairwise.sublist (take_drop_sublist _ _ _) (sortPosts_sorted _)

/-- A store whose three same-timestamp posts sit in table order 2, 1, 3. -/
def dbTies : DB :=
  { users := [7],
    posts :=
      [{ id := 2, authorId := 7, visibility := .PUBLIC, content := "a", createdAt := 5 },
       { id := 1, authorId := 7, visibility := .PUBLIC, content := "b", createdAt := 5 },
       { id := 3, authorId := 7, visibility := .PUBLIC, content := "c", createdAt := 5 }],
    comments := [], follows := [], likes := [], notifications := [], messages := [] }

/-- C4 counterexample: the feed returns the equal-timestamp posts in table
order 2, 1, 3 — neither ascending nor descending by id — so ties are not
broken by the post id and same-timestamp pagination order is not pinned
down by the data. -/
theorem feed_ties_counterexample :
    ((getFeed dbTies 7 1 10).posts.map (fun q => q.1.createdAt) = [5, 5, 5]) ∧
    ((getFeed dbTies 7 1 10).posts.map (fun q => q.1.id) = [2, 1, 3]) ∧
    ¬ List.Pairwise (fun a b : Nat => a ≤ b)
        ((getFeed dbTies 7 1 10).posts.map (fun q => q.1.id)) ∧
    ¬ List.Pairwise (fun a b : Nat => b ≤ a)
        ((getFeed dbTies 7 1 10).posts.map (fun q => q.1.id)) := by
  refine ⟨rfl, rfl, ?_, ?_⟩
  · intro h
    have h21 : (2 : Nat) ≤ 1 := by
      have hids : ((getFeed dbTies 7 1 10).posts.map (fun q => q.1.id)) = [2, 1, 3] := rfl
      rw [hids] at h
      exact (List.pairwise_cons.mp h).1 1 (by simp)
    omega
  · intro h
    have h13 : (3 : Nat) ≤ 1 := by
      have hids : ((getFeed dbTies 7 1 10).posts.map (fun q => q.1.id)) = [2, 1, 3] := rfl
      rw [hids] at h
      exact (List.pairwise_cons.mp (List.pairwise_cons.mp h).2).1 3 (by simp)
    omega

/-! ### C6: follow contract -/

/-- C6: `followUser` answers InvalidAction on a self-follow, NotFound for a
missing followee and Conflict for a duplicate edge, each leaving the store
untouched; otherwise it appends exactly the edge (follower, followee), and
a succeeding notification create appends a FOLLOW notification to the
followee triggered by the follower, while a failing one (surfaced as 500)
still leaves the created edge in place — no rollback. -/
theorem follow_contract (db : DB) (u v : Nat) (notifOk : Bool) :
    (u = v → followUser db u v notifOk = (db, .invalidAction)) ∧
    (u ≠ v → db.userExists v = false → followUser db u v notifOk = (db, .notFound)) ∧
    (u ≠ v → db.userExists v = true → db.followExists u v = true →
      followUser db u v notifOk = (db, .conflict)) ∧
    (u ≠ v → db.userExists v = true → db.followExists u v = false →
      (followUser db u v notifOk).1.follows =
        db.follows ++ [{ followerId := u, followingId := v }] ∧
      (notifOk = true →
        (followUser db u v notifOk).1.notifications = db.notifications ++
          [{ type := .FOLLOW, recipientId := v, triggererId := u, relatedId := none }] ∧
        (followUser db u v notifOk).2 = .ok ()) ∧
      (notifOk = false →
        (followUser db u v notifOk).1.notifications = db.notifications ∧
        (followUser db u v notifOk).2 = .internalError)) := by
  refine ⟨?_, ?_, ?_, ?_⟩
  · intro h
    simp [followUser, h]
  · intro h hu
    simp [followUser, h, hu]
  · intro h hu hf
    simp [followUser, h, hu, hf]
  · intro h hu hf
    cases notifOk <;> simp [followUser, h, hu, hf]

/-- A store with users 2 and 3 and no edges. -/
def dbFollowW : DB :=
  { users := [2, 3], posts := [], comments := [], follows := [],
    likes := [], notifications := [], messages := [] }

/-- Witness for C6: following a fresh user appends exactly the edge. -/
theorem follow_contract_witness :
    (followUser dbFollowW 2 3 true).1.follows =
      dbFollowW.follows ++ [{ followerId := 2, followingId := 3 }] :=
  (((follow_contract dbFollowW 2 3 true).2.2.2) (by decide) (by decide) (by decide)).1

/-! ### C7: like toggling -/

/-- `likePost` never touches the posts table. -/
theorem likePost_posts (db : DB) (u p : Nat) : ((likePost db u p).1).posts = db.posts := by
  unfold likePost
  cases hfp : db.findPost p with
  | none => rfl
  | some post =>
    by_cases h : db.likeExists u p
    · simp [h]
    · by_cases h2 : post.authorId ≠ u <;> simp [h, h2]

/-- A post lookup sees only the posts table. -/
theorem findPost_congr (db db' : DB) (p : Nat) (h : db'.posts = db.posts) :
    db'.findPost p = db.findPost p := by
  unfold DB.findPost
  rw [h]

/-- Unlike branch of `likePost`: the matching Like rows are removed, the
notifications are untouched and the reply is `isLiked: false`. -/
theorem likePost_of_liked (db : DB) (u p : Nat) (post : Post)
    (hfp : db.findPost p = some post) (h : db.likeExists u p = true) :
    (likePost db u p).1.likes = db.likes.filter (fun l => !(l.userId == u && l.postId == p)) ∧
    (likePost db u p).1.notifications = db.notifications ∧
    (likePost db u p).2 = .ok false := by
  unfold likePost
  rw [hfp]
  simp [h]

/-- Like branch of `likePost`: one Like row is appended and the reply is
`isLiked: true`. -/
theorem likePost_of_not_liked (db : DB) (u p : Nat) (post : Post)
    (hfp : db.findPost p = some post) (h : db.likeExists u p = false) :
    (likePost db u p).1.likes = db.likes ++ [{ userId := u, postId := p }] ∧
    (likePost db u p).2 = .ok true := by
  unfold likePost
  rw [hfp]
  by_cases h2 : post.authorId ≠ u <;> simp [h, h2]

/-- No Like row means a zero row count. -/
theorem likeCount_zero_of_not_exists (db : DB) (u p : Nat)
    (h : db.likeExists u p = false) : db.likeCount u p = 0 := by
  unfold DB.likeExists at h
  unfold DB.likeCount
  rw [List.length_eq_zero, List.filter_eq_nil_iff]
  intro a ha hpa
  have hx : db.likes.any (fun l => l.userId == u && l.postId == p) = true :=
    List.any_eq_true.mpr ⟨a, ha, hpa⟩
  rw [h] at hx
  exact Bool.false_ne_true hx

/-- `likePost` flips the presence of the (user, post) Like row. -/
theorem likePost_flips (db : DB) (u p : Nat) (post : Post)
    (hfp : db.findPost p = some post) :
    (likePost db u p).1.likeExists u p = !db.likeExists u p := by
  by_cases h : db.likeExists u p
  · obtain ⟨hl, -, -⟩ := likePost_of_liked db u p post hfp h
    rw [h]
    unfold DB.likeExists
    rw [hl]
    simp only [Bool.not_true]
    rw [List.any_eq_false]
    intro l hl2
    have := (List.mem_filter.mp hl2).2
    simp only [Bool.not_eq_true'] at this
    simp [this]
  · have hfalse : db.likeExists u p = false := by simpa using h
    obtain ⟨hl, -⟩ := likePost_of_not_liked db u p post hfp hfalse
    rw [hfalse]
    unfold DB.likeExists
    rw [hl, List.any_append]
    simp

/-- `likePost` drives the (user, post) row count to 0 from a liked state and
to `count + 1` from an unliked one. -/
theorem likePost_count (db : DB) (u p : Nat) (post : Post)
    (hfp : db.findPost p = some post) :
    (likePost db u p).1.likeCount u p =
      if db.likeExists u p then 0 else db.likeCount u p + 1 := by
  by_cases h : db.likeExists u p
  · obtain ⟨hl, -, -⟩ := likePost_of_liked db u p post hfp h
    rw [if_pos h]
    unfold DB.likeCount
    rw [hl, List.length_eq_zero, List.filter_eq_nil_iff]
    intro a ha hpa
    have := (List.mem_filter.mp ha).2
    rw [hpa] at this
    exact Bool.false_ne_true this
  · obtain ⟨hl, -⟩ := likePost_of_not_liked db u p post hfp (by simpa using h)
    rw [if_neg h]
    unfold DB.likeCount
    rw [hl, List.filter_append]
    simp

/-- `likePost` replies with exactly the post-call presence of the Like row. -/
theorem likePost_isLiked (db : DB) (u p : Nat) (post : Post)
    (hfp : db.findPost p = some post) :
    (likePost db u p).2 = .ok ((likePost db u p).1.likeExists u p) := by
  rw [likePost_flips db u p post hfp]
  by_cases h : db.likeExists u p
  · obtain ⟨-, -, hr⟩ := likePost_of_liked db u p post hfp h
    rw [hr, h]
    rfl
  · obtain ⟨-, hr⟩ := likePost_of_not_liked db u p post hfp (by simpa using h)
    rw [hr]
    simp_all

/-- The post survives any number of toggles. -/
theorem toggleIter_findPost (db : DB) (u p : Nat) (post : Post)
    (hfp : db.findPost p = some post) (n : Nat) :
    (toggleIter db u p n).findPost p = some post := by
  induction n with
  | zero => exact hfp
  | succ n ih =>
    have := findPost_congr (toggleIter db u p n) (toggleIter db u p (n + 1)) p
      (likePost_posts (toggleIter db u p n) u p)
    rw [toggleIter] at this ⊢
    rw [this, ih]

/-- Starting from absence, the Like row is present after exactly the odd
numbers of toggles. -/
theorem toggleIter_exists (db : DB) (u p : Nat) (post : Post)
    (hfp : db.findPost p = some post) (h0 : db.likeExists u p = false) (n : Nat) :
    (toggleIter db u p n).likeExists u p = decide (n % 2 = 1) := by
  induction n with
  | zero => simpa using h0
  | succ n ih =>
    rw [toggleIter, likePost_flips _ u p post (toggleIter_findPost db u p post hfp n), ih,
      ← decide_not]
    have hmod : ¬ (n % 2 = 1) ↔ (n + 1) % 2 = 1 := by omega
    exact decide_eq_decide.mpr hmod

/-- Starting from absence, exactly one Like row exists after an odd number
of toggles and zero after an even number. -/
theorem toggleIter_count (db : DB) (u p : Nat) (post : Post)
    (hfp : db.findPost p = some post) (h0 : db.likeExists u p = false) (n : Nat) :
    (toggleIter db u p n).likeCount u p = if n % 2 = 1 then 1 else 0 := by
  induction n with
  | zero =>
    simpa using likeCount_zero_of_not_exists db u p h0
  | succ n ih =>
    rw [toggleIter, likePost_count _ u p post (toggleIter_findPost db u p post hfp n),
      toggleIter_exists db u p post hfp h0 n, ih]
    by_cases h : n % 2 = 1
    · have h2 : ¬ ((n + 1) % 2 = 1) := by omega
      simp [h, h2]
    · have h2 : (n + 1) % 2 = 1 := by omega
      have hcnt : (toggleIter db u p n).likeCount u p = 0 := by
        rw [ih, if_neg h]
      simp [h, h2]

/-- C7: starting from absence, `likePost` toggling is an involution — after
an odd number of calls exactly one Like row (user, post) exists and after
an even number zero exist; every call replies `isLiked` equal to the
resulting presence; and the second of two consecutive calls removes the row,
replies `isLiked: false`, and creates no new notification. -/
theorem like_toggle_involution (db : DB) (u p : Nat) (post : Post)
    (hfp : db.findPost p = some post) (h0 : db.likeExists u p = false) (n : Nat) :
    ((toggleIter db u p n).likeCount u p = if n % 2 = 1 then 1 else 0) ∧
    ((likePost (toggleIter db u p n) u p).2 =
      .ok ((likePost (toggleIter db u p n) u p).1.likeExists u p)) ∧
    ((likePost (likePost db u p).1 u p).1.likeCount u p = 0) ∧
    ((likePost (likePost db u p).1 u p).2 = .ok false) ∧
    ((likePost (likePost db u p).1 u p).1.notifications =
      (likePost db u p).1.notifications) := by
  have hfp1 : (likePost db u p).1.findPost p = some post := by
    rw [findPost_congr db (likePost db u p).1 p (likePost_posts db u p), hfp]
  have hex1 : (likePost db u p).1.likeExists u p = true := by
    rw [likePost_flips db u p post hfp, h0]
    rfl
  obtain ⟨-, hnotif, hr⟩ := likePost_of_liked (likePost db u p).1 u p post hfp1 hex1
  refine ⟨toggleIter_count db u p post hfp h0 n,
    likePost_isLiked _ u p post (toggleIter_findPost db u p post hfp n), ?_, hr, hnotif⟩
  rw [likePost_count _ u p post hfp1, if_pos hex1]

/-- A store with a post by user 1, user 2 not yet liking it. -/
def dbLikeW : DB :=
  { users := [1, 2],
    posts := [{ id := 30, authorId := 1, visibility := .PUBLIC, content := "w", createdAt := 0 }],
    comments := [], follows := [], likes := [], notifications := [], messages := [] }

/-- Witness for C7: after three toggles by user 2 exactly one Like row
exists. -/
theorem like_toggle_involution_witness :
    (toggleIter dbLikeW 2 30 3).likeCount 2 30 = if 3 % 2 = 1 then 1 else 0 :=
  (like_toggle_involution dbLikeW 2 30
    { id := 30, authorId := 1, visibility := .PUBLIC, content := "w", createdAt := 0 }
    (by decide) (by decide) 3).1

/-! ### C8: send_message -/

/-- C8: on a successful create the handler appends exactly one Message row
and its emissions are exactly the persisted row broadcast to the receiver's
identity room followed by a `message_sent` acknowledgment carrying the same
persisted id to only the originating connection; on a failed create the
store is unchanged, the only emission is an `error` to the originating
connection, and nothing is broadcast to any room. -/
theorem send_message_contract (db : DB) (s r : Nat) (content : String)
    (newId : Nat) (persistOk : Bool) :
    (persistOk = true →
      (sendMessageHandler db s r content newId persistOk).1 =
        { db with messages := db.messages ++
            [{ id := newId, senderId := s, receiverId := r, content := content }] } ∧
      (sendMessageHandler db s r content newId persistOk).2 =
        [Emit.toRoom ("user_" ++ toString r) "new_message"
           (.messageData { id := newId, senderId := s, receiverId := r, content := content }),
         Emit.toSender "message_sent" (.messageSent newId)]) ∧
    (persistOk = false →
      (sendMessageHandler db s r content newId persistOk).1 = db ∧
      (sendMessageHandler db s r content newId persistOk).2 =
        [Emit.toSender "error" (.errorText "Failed to send message")] ∧
      ∀ room ev pl, Emit.toRoom room ev pl ∉
        (sendMessageHandler db s r content newId persistOk).2) := by
  constructor
  · intro h
    subst h
    exact ⟨rfl, rfl⟩
  · intro h
    subst h
    refine ⟨rfl, rfl, ?_⟩
    intro room ev pl hmem
    simp [sendMessageHandler] at hmem

/-- An empty store for the messaging witness. -/
def dbMsgW : DB :=
  { users := [4, 5], posts := [], comments := [], follows := [],
    likes := [], notifications := [], messages := [] }

/-- Witness for C8: a successful send from 4 to 5 emits the broadcast and
the acknowledgment with the persisted id. -/
theorem send_message_contract_witness :
    (sendMessageHandler dbMsgW 4 5 "hi" 9 true).2 =
      [Emit.toRoom ("user_" ++ toString 5) "new_message"
         (.messageData { id := 9, senderId := 4, receiverId := 5, content := "hi" }),
       Emit.toSender "message_sent" (.messageSent 9)] :=
  ((send_message_contract dbMsgW 4 5 "hi" 9 true).1 rfl).2

/-! ### C9: write operations gated by authorship only -/

/-- Rewriting a post's visibility commutes with the id lookup. -/
theorem find?_vis_map (l : List Post) (id : Nat) (v : Visibility) :
    (l.map (fun p => if p.id == id then { p with visibility := v } else p)).find?
        (fun p => p.id == id) =
      (l.find? (fun p => p.id == id)).map (fun p => { p with visibility := v }) := by
  induction l with
  | nil => rfl
  | cons a l ih =>
    simp only [List.map_cons, List.find?_cons]
    by_cases h : (a.id == id) = true
    · simp [h]
    · have hb : (a.id == id) = false := by simpa using h
      simpa [hb, -List.find?_map] using ih

/-- `setPostVisibility` rewrites exactly the looked-up post's visibility. -/
theorem findPost_setPostVisibility (db : DB) (id : Nat) (v : Visibility) :
    (setPostVisibility db id v).findPost id =
      (db.findPost id).map (fun p => { p with visibility := v }) := by
  unfold setPostVisibility DB.findPost
  exact find?_vis_map db.posts id v

/-- Status of `updatePost`: decided by existence and authorship alone. -/
theorem updatePost_status (db : DB) (u id : Nat) (upd : PostUpdate) :
    ((updatePost db u id upd).2).status =
      (match db.findPost id with
       | none => .notFound
       | some post => if post.authorId ≠ u then .forbidden else .ok ()) := by
  unfold updatePost
  cases db.findPost id with
  | none => rfl
  | some post =>
    by_cases h : post.authorId ≠ u <;> simp [h, Outcome.status]

/-- Status of `deletePost`: decided by existence and authorship alone. -/
theorem deletePost_status (db : DB) (u id : Nat) :
    ((deletePost db u id).2).status =
      (match db.findPost id with
       | none => .notFound
       | some post => if post.authorId ≠ u then .forbidden else .ok ()) := by
  unfold deletePost
  cases db.findPost id with
  | none => rfl
  | some post =>
    by_cases h : post.authorId ≠ u <;> simp [h, Outcome.status]

/-- Status of `updateComment`: decided by existence and authorship alone. -/
theorem updateComment_status (db : DB) (u id : Nat) (content : String) :
    ((updateComment db u id content).2).status =
      (match db.findComment id with
       | none => .notFound
       | some c => if c.userId ≠ u then .forbidden else .ok ()) := by
  unfold updateComment
  cases db.findComment id with
  | none => rfl
  | some c =>
    by_cases h : c.userId ≠ u <;> simp [h, Outcome.status]

/-- Status of `deleteComment`: decided by existence and authorship alone. -/
theorem deleteComment_status (db : DB) (u id : Nat) :
    ((deleteComment db u id).2).status =
      (match db.findComment id with
       | none => .notFound
       | some c => if c.userId ≠ u then .forbidden else .ok ()) := by
  unfold deleteComment
  cases db.findComment id with
  | none => rfl
  | some c =>
    by_cases h : c.userId ≠ u <;> simp [h, Outcome.status]

/-- C9: every post/comment write (update and delete) 404s on a missing item
and otherwise succeeds exactly when the caller is the item's author, any
other caller being denied with Forbidden; and the decision never consults
the visibility column — rewriting the post's visibility to any value leaves
every write status unchanged. -/
theorem write_requires_author (db : DB) (u id : Nat) (upd : PostUpdate)
    (newContent : String) :
    (db.findPost id = none →
      (updatePost db u id upd).2 = .notFound ∧ (deletePost db u id).2 = .notFound) ∧
    (∀ post, db.findPost id = some post →
      (post.authorId = u →
        ((updatePost db u id upd).2).status = .ok () ∧
        ((deletePost db u id).2).status = .ok ()) ∧
      (post.authorId ≠ u →
        (updatePost db u id upd).2 = .forbidden ∧ (deletePost db u id).2 = .forbidden)) ∧
    (db.findComment id = none →
      (updateComment db u id newContent).2 = .notFound ∧
      (deleteComment db u id).2 = .notFound) ∧
    (∀ c, db.findComment id = some c →
      (c.userId = u →
        (updateComment db u id newContent).2 = .ok () ∧
        (deleteComment db u id).2 = .ok ()) ∧
      (c.userId ≠ u →
        (updateComment db u id newContent).2 = .forbidden ∧
        (deleteComment db u id).2 = .forbidden)) ∧
    (∀ v, ((updatePost (setPostVisibility db id v) u id upd).2).status =
        ((updatePost db u id upd).2).status ∧
      ((deletePost (setPostVisibility db id v) u id).2).status =
        ((deletePost db u id).2).status) := by
  refine ⟨?_, ?_, ?_, ?_, ?_⟩
  · intro h
    refine ⟨?_, ?_⟩
    · unfold updatePost
      rw [h]
    · unfold deletePost
      rw [h]
  · intro post hfind
    constructor
    · intro ha
      rw [updatePost_status, deletePost_status, hfind]
      simp [ha]
    · intro ha
      unfold updatePost deletePost
      rw [hfind]
      simp [ha]
  · intro h
    refine ⟨?_, ?_⟩
    · unfold updateComment
      rw [h]
    · unfold deleteComment
      rw [h]
  · intro c hfind
    constructor
    · intro ha
      unfold updateComment deleteComment
      rw [hfind]
      simp [ha]
    · intro ha
      unfold updateComment deleteComment
      rw [hfind]
      simp [ha]
  · intro v
    rw [updatePost_status, updatePost_status, deletePost_status, deletePost_status,
      findPost_setPostVisibility]
    cases db.findPost id with
    | none => exact ⟨rfl, rfl⟩
    | some post => exact ⟨rfl, rfl⟩

/-- A store for the write witness: a PRIVATE post and a comment by user 1. -/
def dbWriteW : DB :=
  { users := [1, 2],
    posts := [{ id := 40, authorId := 1, visibility := .PRIVATE, content := "w", createdAt := 0 }],
    comments := [{ id := 41, postId := 40, userId := 1, content := "c", parentId := none, createdAt := 1 }],
    follows := [], likes := [], notifications := [], messages := [] }

/-- Witness for C9: user 2 may not delete user 1's post. -/
theorem write_requires_author_witness :
    (deletePost dbWriteW 2 40).2 = Outcome.forbidden :=
  (((write_requires_author dbWriteW 2 40 { content := none, visibility := none } "n").2.1
    { id := 40, authorId := 1, visibility := .PRIVATE, content := "w", createdAt := 0 }
    (by decide)).2 (by decide)).2

/-! ### C10: reply parent must belong to the same post -/

/-- The row creation tail always answers 201 with the created comment. -/
theorem createCommentRow_snd (db : DB) (u postId : Nat) (content : String)
    (parentId : Option Nat) (newId now : Nat) (post : Post) :
    (createCommentRow db u postId content parentId newId now post).2 =
      .ok { id := newId, postId := postId, userId := u, content := content,
            parentId := parentId, createdAt := now } := by
  unfold createCommentRow
  by_cases h : post.authorId ≠ u <;> simp [h]

/-- C10: for a `createComment` request carrying a `parentId`, on an
existing post whose access checks pass, the request answers NotFound unless
a comment with that id exists and belongs to the same post; a successful
reply records exactly that parent, so its parent comment belongs to the
same post as the reply. -/
theorem reply_parent_same_post (db : DB) (u postId : Nat) (content : String)
    (pid newId now : Nat) (post : Post)
    (hfind : db.findPost postId = some post)
    (hpriv : ¬(post.visibility = .PRIVATE ∧ post.authorId ≠ u))
    (hfriends : ¬(post.visibility = .FRIENDS ∧ post.authorId ≠ u ∧
      db.followExists u post.authorId = false)) :
    (db.findComment pid = none →
      createComment db u postId content (some pid) newId now = (db, .notFound)) ∧
    (∀ pc, db.findComment pid = some pc → pc.postId ≠ postId →
      createComment db u postId content (some pid) newId now = (db, .notFound)) ∧
    (∀ pc, db.findComment pid = some pc → pc.postId = postId →
      (createComment db u postId content (some pid) newId now).2 =
        .ok { id := newId, postId := postId, userId := u, content := content,
              parentId := some pid, createdAt := now }) ∧
    (∀ res c, createComment db u postId content (some pid) newId now = (res, Outcome.ok c) →
      ∃ pc, db.findComment pid = some pc ∧ pc.postId = c.postId) := by
  unfold createComment
  rw [hfind]
  dsimp only
  rw [if_neg hpriv, if_neg hfriends]
  refine ⟨?_, ?_, ?_, ?_⟩
  · intro h
    rw [h]
  · intro pc hpc hne
    rw [hpc]
    dsimp only
    rw [if_pos hne]
  · intro pc hpc heq
    rw [hpc]
    dsimp only
    rw [if_neg (not_not_intro heq)]
    exact createCommentRow_snd db u postId content (some pid) newId now post
  · intro res c hok
    cases hpc : db.findComment pid with
    | none =>
      rw [hpc] at hok
      dsimp only at hok
      exact absurd (congrArg Prod.snd hok) (by simp)
    | some pc =>
      rw [hpc] at hok
      dsimp only at hok
      by_cases hne : pc.postId ≠ postId
      · rw [if_pos hne] at hok
        exact absurd (congrArg Prod.snd hok) (by simp)
      · rw [if_neg hne] at hok
        have hc : c = { id := newId, postId := postId, userId := u,
                        content := content, parentId := some pid, createdAt := now } := by
          have h2 := (congrArg Prod.snd hok).symm.trans
            (createCommentRow_snd db u postId content (some pid) newId now post)
          simpa using h2
        refine ⟨pc, rfl, ?_⟩
        rw [hc]
        simpa using hne

/-- A store for the reply witness: a PUBLIC post with one comment. -/
def dbReplyW : DB :=
  { users := [1, 2],
    posts := [{ id := 10, authorId := 1, visibility := .PUBLIC, content := "p", createdAt := 0 }],
    comments := [{ id := 20, postId := 10, userId := 1, content := "c", parentId := none, createdAt := 1 }],
    follows := [], likes := [], notifications := [], messages := [] }

/-- Witness for C10: replying to comment 20 on its own post succeeds with
the parent recorded. -/
theorem reply_parent_same_post_witness :
    (createComment dbReplyW 2 10 "r" (some 20) 21 2).2 =
      Outcome.ok { id := 21, postId := 10, userId := 2, content := "r",
                   parentId := some 20, createdAt := 2 } :=
  (reply_parent_same_post dbReplyW 2 10 "r" 20 21 2
      { id := 10, authorId := 1, visibility := .PUBLIC, content := "p", createdAt := 0 }
      (by decide) (by decide) (by decide)).2.2.1
    { id := 20, postId := 10, userId := 1, content := "c", parentId := none, createdAt := 1 }
    (by decide) (by decide)

end Socialer
